import Mathlib

/-!
Shallow embedding of the CHERI-MIPS capability coprocessor semantics of
`target/mips/op_helper_cheri.c` (and the MIPS gdb stub), together with proofs
about the capability check engine, the instruction helpers and the debugger
interface.

Machine integers are modelled as `Nat` with explicit reduction modulo `2 ^ 64`
where the C code relies on `uint64_t` wrap-around.  Helpers that can raise a
coprocessor exception return `Except CheriError α`; raising an exception is
modelled as returning `.error`.
-/

/-- Constant `2 ^ 64`, the modulus of `uint64_t` arithmetic. -/
def MOD64 : Nat := 2 ^ 64

/-- Constant `UINT64_MAX`. -/
def UINT64_MAX : Nat := 2 ^ 64 - 1

/-- Modelled from the spec: architectural permission bits (§3 lists the twelve
architectural permissions; the numeric bit positions are the standard
CHERI-MIPS assignment, which is not part of `src/`). -/
def CAP_PERM_GLOBAL : Nat := 1

/-- Modelled from the spec: PERM_EXECUTE bit. -/
def CAP_PERM_EXECUTE : Nat := 2

/-- Modelled from the spec: PERM_LOAD bit. -/
def CAP_PERM_LOAD : Nat := 4

/-- Modelled from the spec: PERM_STORE bit. -/
def CAP_PERM_STORE : Nat := 8

/-- Modelled from the spec: PERM_LOAD_CAP bit. -/
def CAP_PERM_LOAD_CAP : Nat := 16

/-- Modelled from the spec: PERM_STORE_CAP bit. -/
def CAP_PERM_STORE_CAP : Nat := 32

/-- Modelled from the spec: PERM_STORE_LOCAL bit. -/
def CAP_PERM_STORE_LOCAL : Nat := 64

/-- Modelled from the spec: PERM_SEAL bit. -/
def CAP_PERM_SEAL : Nat := 128

/-- Modelled from the spec: PERM_CCALL bit. -/
def CAP_PERM_CCALL : Nat := 256

/-- Modelled from the spec: PERM_UNSEAL bit. -/
def CAP_PERM_UNSEAL : Nat := 512

/-- Modelled from the spec: ACCESS_SYS_REGS bit. -/
def CAP_ACCESS_SYS_REGS : Nat := 1024

/-- Modelled from the spec: mask of all architectural permission bits. -/
def CAP_PERMS_ALL : Nat := 0x7ff

/-- Modelled from the spec: mask of the (≤ 4) user permission bits. -/
def CAP_UPERMS_ALL : Nat := 0xf

/-- Modelled from the spec: shift distance of the user-permission field inside
a combined permission word. -/
def CAP_UPERMS_SHFT : Nat := 15

/-- Modelled from the spec: index of the highest user permission bit. -/
def CAP_MAX_UPERM : Nat := 3

/-- Modelled from the spec: the otype space (§3 sealing taxonomy).  Every otype
is one of UNSEALED, SENTRY, a user-sealed type in `[0, CAP_MAX_SEALED_OTYPE]`,
or a reserved special value between them.  The concrete values are not in
`src/`; only their ordering relationships matter. -/
def CAP_MAX_REPRESENTABLE_OTYPE : Nat := 0xffffff

/-- Modelled from the spec: otype of an unsealed capability. -/
def CAP_OTYPE_UNSEALED : Nat := 0xffffff

/-- Modelled from the spec: otype of a sealed-entry ("sentry") capability. -/
def CAP_OTYPE_SENTRY : Nat := 0xfffffe

/-- Modelled from the spec: largest user-sealed object type. -/
def CAP_MAX_SEALED_OTYPE : Nat := 0xfffffd

/-- Capability size in bytes for the 256-bit uncompressed encoding. -/
def CHERI_CAP_SIZE : Nat := 32

/-- The abstract capability register (`cap_register_t`): tag, 64-bit base,
65-bit exclusive top (`_cr_top`), 64-bit offset (cursor = base + offset mod
`2 ^ 64`), architectural and user permission masks, and otype. -/
structure cap_register_t where
  cr_tag : Bool
  cr_base : Nat
  cr_top : Nat
  cr_offset : Nat
  cr_perms : Nat
  cr_uperms : Nat
  cr_otype : Nat
deriving Repr, DecidableEq

/-- Capability cause codes of coprocessor-2 exceptions, mirroring the
`cp2_fault_causestr` table of the source (plus `PERM_UNSEAL`, raised by
`helper_cunseal`). -/
inductive CP2Ca where
  | NONE
  | LENGTH
  | TAG
  | SEAL
  | TYPE
  | CALL
  | RETURNTRAP
  | UNDERFLOW
  | USRDEFINE
  | TLBSTORE
  | INEXACT
  | GLOBAL
  | PERM_EXE
  | PERM_LD
  | PERM_ST
  | PERM_LD_CAP
  | PERM_ST_CAP
  | PERM_ST_LC_CAP
  | PERM_SEAL
  | ACCESS_SYS_REGS
  | PERM_CCALL
  | PERM_UNSEAL
deriving Repr, DecidableEq

/-- The exceptions a helper can raise: a coprocessor-2 capability exception
(`do_raise_c2_exception` with cause and faulting register number) or a
coprocessor-0 address error (`EXCP_AdEL` / `EXCP_AdES` with the bad address). -/
inductive CheriError where
  | c2 (cause : CP2Ca) (regnum : Nat)
  | c0AdEL (addr : Nat)
  | c0AdES (addr : Nat)
deriving Repr, DecidableEq

/-- Accessor `cap_get_cursor`: base + offset, wrapping at 64 bits. -/
def cap_get_cursor (c : cap_register_t) : Nat :=
  (c.cr_base + c.cr_offset) % MOD64

/-- Accessor `cap_get_offset`. -/
def cap_get_offset (c : cap_register_t) : Nat := c.cr_offset

/-- Accessor `cap_get_top` (the 65-bit `cap_get_top65`): the exclusive upper bound. -/
def cap_get_top (c : cap_register_t) : Nat := c.cr_top

/-- Accessor `cap_get_base`. -/
def cap_get_base (c : cap_register_t) : Nat := c.cr_base

/-- Accessor for the 65-bit length (`cap_get_length65`). -/
def cap_get_length65 (c : cap_register_t) : Nat := c.cr_top - c.cr_base

/-- Modelled from the spec: `in_bounds(cap, addr, nbytes)` =
`base ≤ addr ∧ addr + nbytes ≤ top` (§4.2); `cap_is_in_bounds` lives in a
header outside `src/`. -/
def cap_is_in_bounds (c : cap_register_t) (addr nbytes : Nat) : Bool :=
  decide (c.cr_base ≤ addr ∧ addr + nbytes ≤ c.cr_top)

/-- Modelled from the spec: `is_unsealed` predicate of the otype taxonomy. -/
def cap_is_unsealed (c : cap_register_t) : Bool :=
  c.cr_otype == CAP_OTYPE_UNSEALED

/-- Modelled from the spec: `is_sealed_entry` predicate (sentry). -/
def cap_is_sealed_entry (c : cap_register_t) : Bool :=
  c.cr_otype == CAP_OTYPE_SENTRY

/-- Modelled from the spec: `is_sealed_with_type` predicate (user-sealed). -/
def cap_is_sealed_with_type (c : cap_register_t) : Bool :=
  decide (c.cr_otype ≤ CAP_MAX_SEALED_OTYPE)

/-- Predicate `is_cap_sealed` from the source: sealed with a type or a sealed entry. -/
def is_cap_sealed (c : cap_register_t) : Bool :=
  cap_is_sealed_with_type c || cap_is_sealed_entry c

/-- Predicate `caps_have_same_type` from the source. -/
def caps_have_same_type (c1 c2 : cap_register_t) : Bool :=
  c1.cr_otype == c2.cr_otype

/-- Modelled from the spec: the null capability — all fields zero, tag clear
(§3 register file lifecycle); `null_capability` lives outside `src/`. -/
def null_capability : cap_register_t :=
  { cr_tag := false, cr_base := 0, cr_top := 0, cr_offset := 0,
    cr_perms := 0, cr_uperms := 0, cr_otype := 0 }

/-- Modelled from the spec: `mark_unrepresentable(cursor)` — the tag is cleared
and the bit pattern carries the requested cursor (§4.4 unrepresentability);
`cap_mark_unrepresentable` lives outside `src/`. -/
def cap_mark_unrepresentable (addr : Nat) : cap_register_t :=
  { cr_tag := false, cr_base := 0, cr_top := 0, cr_offset := addr % MOD64,
    cr_perms := 0, cr_uperms := 0, cr_otype := CAP_OTYPE_UNSEALED }

/-- Modelled from the spec: `set_unsealed` — reset the otype to UNSEALED. -/
def cap_set_unsealed (c : cap_register_t) : cap_register_t :=
  { c with cr_otype := CAP_OTYPE_UNSEALED }

/-- Modelled from the spec: `set_sealed(type)`. -/
def cap_set_sealed (c : cap_register_t) (t : Nat) : cap_register_t :=
  { c with cr_otype := t }

/-- Function `align_of(size, addr)` from the source: the misalignment of `addr` with
respect to `size` (a power of two between 1 and 128). -/
def align_of (size addr : Nat) : Nat :=
  if size = 1 then 0
  else if size = 2 then addr % 2
  else if size = 4 then addr % 4
  else if size = 8 then addr % 8
  else if size = 16 then addr % 16
  else if size = 32 then addr % 32
  else if size = 64 then addr % 64
  else if size = 128 then addr % 128
  else 1

/-- The check engine `check_cap`.  Applies, in source order: tag, seal,
permission (raising the matching violation only for EXECUTE / LOAD / STORE —
for any other missing permission bit the `switch` falls through), bounds, and
finally the live `TYPE_CHECK_CHECK_CAP` comparison of the capability's otype
with PCC's otype, which raises a TYPE violation only for `regnum ≠ 0`. -/
def check_cap (pcc : cap_register_t) (cr : cap_register_t) (perm : Nat)
    (addr : Nat) (regnum : Nat) (len : Nat) : Except CheriError Unit :=
  if cr.cr_tag = false then
    .error (.c2 .TAG regnum)
  else if is_cap_sealed cr = true then
    .error (.c2 .SEAL regnum)
  else if cr.cr_perms &&& perm ≠ perm ∧ perm = CAP_PERM_EXECUTE then
    .error (.c2 .PERM_EXE regnum)
  else if cr.cr_perms &&& perm ≠ perm ∧ perm = CAP_PERM_LOAD then
    .error (.c2 .PERM_LD regnum)
  else if cr.cr_perms &&& perm ≠ perm ∧ perm = CAP_PERM_STORE then
    .error (.c2 .PERM_ST regnum)
  else if cap_is_in_bounds cr addr len = false then
    .error (.c2 .LENGTH regnum)
  else if caps_have_same_type pcc cr = false ∧ regnum ≠ 0 then
    .error (.c2 .TYPE regnum)
  else
    .ok ()

/-- Helper `helper_cbez`: returns 1 iff the operand is the null sentinel
(base = 0 ∧ tag = 0 ∧ offset = 0). -/
def helper_cbez (cbp : cap_register_t) : Nat :=
  if cbp.cr_base = 0 ∧ cbp.cr_tag = false ∧ cbp.cr_offset = 0 then 1 else 0

/-- Helper `helper_cbnz`: returns 0 on the null sentinel and 1 otherwise. -/
def helper_cbnz (cbp : cap_register_t) : Nat :=
  if cbp.cr_base = 0 ∧ cbp.cr_tag = false ∧ cbp.cr_offset = 0 then 0 else 1

/-- Helper `helper_candperm`: restrict permissions.  Undefined bits of `rt` are
masked away by `& CAP_PERMS_ALL` / the uperm field extraction; no exception is
raised for them. -/
def helper_candperm (cbp : cap_register_t) (rt : Nat) (cb : Nat) :
    Except CheriError cap_register_t :=
  if cbp.cr_tag = false then
    .error (.c2 .TAG cb)
  else if is_cap_sealed cbp = true then
    .error (.c2 .SEAL cb)
  else
    .ok { cbp with
            cr_perms := cbp.cr_perms &&& (rt &&& CAP_PERMS_ALL),
            cr_uperms :=
              cbp.cr_uperms &&& ((rt >>> CAP_UPERMS_SHFT) &&& CAP_UPERMS_ALL) }

/-- Helper `helper_ccheckperm`: raise USRDEFINE if the capability lacks a requested
(defined) permission, or if `rt` has bits set at position
`16 + CAP_MAX_UPERM` or above. -/
def helper_ccheckperm (csp : cap_register_t) (rt : Nat) (cs : Nat) :
    Except CheriError Unit :=
  if csp.cr_tag = false then
    .error (.c2 .TAG cs)
  else if csp.cr_perms &&& (rt &&& CAP_PERMS_ALL) ≠ rt &&& CAP_PERMS_ALL then
    .error (.c2 .USRDEFINE cs)
  else if csp.cr_uperms &&& ((rt >>> CAP_UPERMS_SHFT) &&& CAP_UPERMS_ALL) ≠
          (rt >>> CAP_UPERMS_SHFT) &&& CAP_UPERMS_ALL then
    .error (.c2 .USRDEFINE cs)
  else if rt >>> (16 + CAP_MAX_UPERM) ≠ 0 then
    .error (.c2 .USRDEFINE cs)
  else
    .ok ()

/-- Helper `helper_cfromptr`.  `repr` abstracts `is_representable_cap` of the active
encoding; `cbp` is the operand capability (register 0 reads `$ddc`). -/
def helper_cfromptr (repr : cap_register_t → Nat → Bool)
    (cbp : cap_register_t) (rt : Nat) (cb : Nat) :
    Except CheriError cap_register_t :=
  if rt = 0 then
    .ok null_capability
  else if cbp.cr_tag = false then
    .error (.c2 .TAG cb)
  else if is_cap_sealed cbp = true then
    .error (.c2 .SEAL cb)
  else if repr cbp rt = false then
    .ok (cap_mark_unrepresentable (cbp.cr_base + rt))
  else
    .ok { cbp with cr_offset := rt % MOD64 }

/-- Helper `cincoffset_impl`.  `repr` abstracts `is_representable_cap`; `c2e`
abstracts the `cheri_c2e_on_unrepresentable` policy flag under which
`_became_unrepresentable` (reached only for a tagged operand) raises INEXACT. -/
def cincoffset_impl (c2e : Bool) (repr : cap_register_t → Nat → Bool)
    (cbp : cap_register_t) (rt : Nat) (cd : Nat) :
    Except CheriError cap_register_t :=
  if cbp.cr_tag = true ∧ is_cap_sealed cbp = true ∧ rt ≠ 0 then
    .error (.c2 .SEAL cd)
  else if repr cbp ((cbp.cr_offset + rt) % MOD64) = false then
    if cbp.cr_tag = true ∧ c2e = true then
      .error (.c2 .INEXACT cd)
    else
      .ok (cap_mark_unrepresentable (cbp.cr_base + (cbp.cr_offset + rt) % MOD64))
  else
    .ok { cbp with cr_offset := (cbp.cr_offset + rt) % MOD64 }

/-- Helper `helper_csetoffset`.  Same conventions as `cincoffset_impl`. -/
def helper_csetoffset (c2e : Bool) (repr : cap_register_t → Nat → Bool)
    (cbp : cap_register_t) (rt : Nat) (cd : Nat) :
    Except CheriError cap_register_t :=
  if cbp.cr_tag = true ∧ is_cap_sealed cbp = true then
    .error (.c2 .SEAL cd)
  else
    if repr cbp (rt % MOD64) = false then
      if cbp.cr_tag = true ∧ c2e = true then
        .error (.c2 .INEXACT cd)
      else
        .ok (cap_mark_unrepresentable (cbp.cr_base + rt))
    else
      .ok { cbp with cr_offset := rt % MOD64 }

/-- Helper `cseal_common`, shared by CSeal (`conditional = false`) and CCSeal
(`conditional = true`).  `reprSealed` abstracts
`is_representable_cap_when_sealed`. -/
def cseal_common (reprSealed : cap_register_t → Nat → Bool)
    (conditional : Bool) (csp ctp : cap_register_t) (cs ct : Nat) :
    Except CheriError cap_register_t :=
  let ct_base_plus_offset := cap_get_cursor ctp
  if csp.cr_tag = false then
    .error (.c2 .TAG cs)
  else if ctp.cr_tag = false then
    if conditional = true then .ok csp else .error (.c2 .TAG ct)
  else if conditional = true ∧ cap_get_cursor ctp = MOD64 - 1 then
    .ok csp
  else if is_cap_sealed csp = true then
    .error (.c2 .SEAL cs)
  else if is_cap_sealed ctp = true then
    .error (.c2 .SEAL ct)
  else if ctp.cr_perms &&& CAP_PERM_SEAL = 0 then
    .error (.c2 .PERM_SEAL ct)
  else if cap_is_in_bounds ctp ct_base_plus_offset 1 = false then
    .error (.c2 .LENGTH ct)
  else if CAP_MAX_SEALED_OTYPE < ct_base_plus_offset then
    .error (.c2 .LENGTH ct)
  else if reprSealed csp (cap_get_offset csp) = false then
    .error (.c2 .INEXACT cs)
  else
    .ok (cap_set_sealed csp ct_base_plus_offset)

/-- Helper `helper_cunseal`.  The local `ct_cursor` of the source is written out as
`cap_get_cursor ctp`; the two assignments to the GLOBAL bit of the result are
written as the two branches of the final condition. -/
def helper_cunseal (csp ctp : cap_register_t) (cs ct : Nat) :
    Except CheriError cap_register_t :=
  if csp.cr_tag = false then
    .error (.c2 .TAG cs)
  else if ctp.cr_tag = false then
    .error (.c2 .TAG ct)
  else if cap_is_unsealed csp = true then
    .error (.c2 .SEAL cs)
  else if cap_is_unsealed ctp = false then
    .error (.c2 .SEAL ct)
  else if cap_get_cursor ctp ≠ csp.cr_otype ∨
          cap_is_sealed_with_type csp = false then
    .error (.c2 .TYPE ct)
  else if ctp.cr_perms &&& CAP_PERM_UNSEAL = 0 then
    .error (.c2 .PERM_UNSEAL ct)
  else if cap_is_in_bounds ctp (cap_get_cursor ctp) 1 = false then
    .error (.c2 .LENGTH ct)
  else if CAP_MAX_SEALED_OTYPE ≤ cap_get_cursor ctp then
    .error (.c2 .LENGTH ct)
  else if csp.cr_perms &&& CAP_PERM_GLOBAL ≠ 0 ∧
          ctp.cr_perms &&& CAP_PERM_GLOBAL ≠ 0 then
    .ok (cap_set_unsealed
      { csp with cr_perms := csp.cr_perms ||| CAP_PERM_GLOBAL })
  else
    .ok (cap_set_unsealed
      { csp with cr_perms := csp.cr_perms - (csp.cr_perms &&& CAP_PERM_GLOBAL) })

/-- Helper `do_setbounds`, shared by CSetBounds (`must_be_exact = false`) and
CSetBoundsExact (`must_be_exact = true`).  This embeds the precise-encoding
branch of the source (the `#else` of `CHERI_128`), in which bounds are set
exactly; `new_top` is computed at full width (the source uses a 128-bit
integer), so no wrap-around occurs. -/
def do_setbounds (must_be_exact : Bool) (cbp : cap_register_t)
    (length : Nat) (cb : Nat) : Except CheriError cap_register_t :=
  let cursor := cap_get_cursor cbp
  let new_top := cursor + length
  if cbp.cr_tag = false then
    .error (.c2 .TAG cb)
  else if is_cap_sealed cbp = true then
    .error (.c2 .SEAL cb)
  else if cursor < cbp.cr_base then
    .error (.c2 .LENGTH cb)
  else if UINT64_MAX < new_top then
    .error (.c2 .LENGTH cb)
  else if cap_get_top cbp < new_top then
    .error (.c2 .LENGTH cb)
  else
    .ok { cbp with cr_base := cursor, cr_top := new_top, cr_offset := 0 }

/-- Sign extension of a 32-bit value (`(int32_t)offset`). -/
def sext32 (x : Nat) : Int :=
  if x % 2 ^ 32 < 2 ^ 31 then ((x % 2 ^ 32 : Nat) : Int)
  else ((x % 2 ^ 32 : Nat) : Int) - 2 ^ 32

/-- Reduce an integer into `[0, 2 ^ 64)` (`(uint64_t)` conversion). -/
def wrap64 (x : Int) : Nat := (x % (MOD64 : Int)).toNat

/-- Helper `get_csc_addr`: validate a capability store (CSC) through `cbp` (register
0 reads `$ddc`) of the capability in `csp`, and compute the effective
address `cursor + rt + (int32_t)offset`. -/
def get_csc_addr (cbp csp : cap_register_t) (rt : Nat) (offset : Nat)
    (cb : Nat) : Except CheriError Nat :=
  if cbp.cr_tag = false then
    .error (.c2 .TAG cb)
  else if is_cap_sealed cbp = true then
    .error (.c2 .SEAL cb)
  else if cbp.cr_perms &&& CAP_PERM_STORE = 0 then
    .error (.c2 .PERM_ST cb)
  else if cbp.cr_perms &&& CAP_PERM_STORE_CAP = 0 then
    .error (.c2 .PERM_ST_CAP cb)
  else if cbp.cr_perms &&& CAP_PERM_STORE_LOCAL = 0 ∧ csp.cr_tag = true ∧
          csp.cr_perms &&& CAP_PERM_GLOBAL = 0 then
    .error (.c2 .PERM_ST_LC_CAP cb)
  else
    let cursor := cap_get_cursor cbp
    let addr := wrap64 ((cursor : Int) + (rt : Int) + sext32 offset)
    if cap_is_in_bounds cbp addr CHERI_CAP_SIZE = false then
      .error (.c2 .LENGTH cb)
    else if align_of CHERI_CAP_SIZE addr ≠ 0 then
      .error (.c0AdES addr)
    else
      .ok addr

/-- Modelled from the spec: `tag_set(addr)` — set the tag bit of the
capability-sized line containing `addr` (§3 tag memory); `cheri_tag_set`
lives outside `src/`. -/
def cheri_tag_set (tags : Nat → Bool) (vaddr : Nat) : Nat → Bool :=
  fun a => if a / CHERI_CAP_SIZE = vaddr / CHERI_CAP_SIZE then true else tags a

/-- Modelled from the spec: `tag_invalidate(addr, nbytes)` — clear the tag of
every capability-sized line overlapping `[addr, addr + nbytes)`;
`cheri_tag_invalidate` lives outside `src/`. -/
def cheri_tag_invalidate (tags : Nat → Bool) (vaddr nbytes : Nat) :
    Nat → Bool :=
  fun a =>
    if vaddr / CHERI_CAP_SIZE ≤ a / CHERI_CAP_SIZE ∧
       a / CHERI_CAP_SIZE ≤ (vaddr + nbytes - 1) / CHERI_CAP_SIZE then
      false
    else tags a

/-- Modelled from the spec: the 256-bit memory representation (§6 layout):
word0 = (otype ≪ 32 | perms ≪ 1 | sealed) ⊕ all-ones, word1 = cursor,
word2 = base, word3 = length ⊕ all-ones; `compress_256cap` lives outside
`src/`. -/
def compress_256cap (c : cap_register_t) : Nat × Nat × Nat × Nat :=
  let perms := ((c.cr_uperms &&& CAP_UPERMS_ALL) <<< CAP_UPERMS_SHFT) |||
               (c.cr_perms &&& CAP_PERMS_ALL)
  let sealed := if is_cap_sealed c then 1 else 0
  let word0 := ((c.cr_otype <<< 32) ||| (perms <<< 1) ||| sealed) ^^^ UINT64_MAX
  (word0, cap_get_cursor c, c.cr_base, (cap_get_length65 c % MOD64) ^^^ UINT64_MAX)

/-- The result of `store_cap_to_memory`: the updated tag memory (a map from
byte address to the tag bit of its line) and the four 64-bit data words
written at `vaddr`. -/
structure StoreCapResult where
  tags : Nat → Bool
  words : Nat × Nat × Nat × Nat

/-- Helper `store_cap_to_memory` (256-bit variant): stage the tag write — set the
line tag iff the stored capability is tagged, else invalidate it — then write
the four data words. -/
def store_cap_to_memory (tags : Nat → Bool) (csp : cap_register_t)
    (vaddr : Nat) : StoreCapResult :=
  let newTags :=
    if csp.cr_tag = true then cheri_tag_set tags vaddr
    else cheri_tag_invalidate tags vaddr CHERI_CAP_SIZE
  { tags := newTags, words := compress_256cap csp }

/-- The per-hart capability state visible to the gdb stub: general capability
registers (`_CGPR`, indexed 0–31) and the hardware capability registers. -/
structure TCState where
  CGPR : Nat → cap_register_t
  DDC : cap_register_t
  PCC : cap_register_t
  UserTlsCap : cap_register_t
  PrivTlsCap : cap_register_t
  KR1C : cap_register_t
  KR2C : cap_register_t
  KCC : cap_register_t
  KDC : cap_register_t
  EPCC : cap_register_t
  ErrorEPCC : cap_register_t
  CP2_CapCause : Nat

/-- The `for (i = 1; i < 32; i++)` loop of the index-43 arm of
`mips_gdb_get_cheri_reg`: OR together bit `i` for every tagged general
capability register `i` in `1..n`. -/
def cap_valid_loop (env : TCState) : Nat → Nat
  | 0 => 0
  | n + 1 =>
      cap_valid_loop env n |||
        (if (env.CGPR (n + 1)).cr_tag then 1 <<< (n + 1) else 0)

/-- The index-43 arm of `mips_gdb_get_cheri_reg`: a 64-bit bitset with bit 0
the tag of DDC, bit `i` (1 ≤ i ≤ 31) the tag of general capability register
`i`, and bit 32 the tag of PCC.  It only reads the register file. -/
def mips_gdb_get_cheri_reg_43 (env : TCState) : Nat :=
  ((if env.DDC.cr_tag then 1 else 0) ||| cap_valid_loop env 31) |||
    (if env.PCC.cr_tag then 1 <<< 32 else 0)

/-! ## Theorems -/

/-- C6: `CFromPtr` with integer operand `rt = 0` writes the null capability
and raises no exception, for every source capability (tagged or not, sealed or
not) and every representability predicate. -/
theorem cfromptr_zero_gives_null (repr : cap_register_t → Nat → Bool)
    (cbp : cap_register_t) (cb : Nat) :
    helper_cfromptr repr cbp 0 cb = .ok null_capability := by
  simp [helper_cfromptr]

/-- C3 (amended): `helper_cbnz` is the complement of `helper_cbez`: on every
operand exactly one of them returns 1, and `helper_cbez` returns 1 precisely on
the null sentinel (base = 0 ∧ tag = 0 ∧ offset = 0); hence `helper_cbnz`
returns non-zero exactly when the capability is not null. -/
theorem cbnz_complements_cbez (c : cap_register_t) :
    helper_cbnz c + helper_cbez c = 1 ∧
    (helper_cbez c = 1 ↔ (c.cr_base = 0 ∧ c.cr_tag = false ∧ c.cr_offset = 0)) := by
  unfold helper_cbnz helper_cbez
  split <;> simp_all

/-- C3 counterexample: on the null capability `helper_cbez` returns 1 while
`helper_cbnz` returns 0, so the two helpers do not return the same value and
`helper_cbnz` is not non-zero on null. -/
theorem cbnz_differs_from_cbez_on_null :
    helper_cbez null_capability = 1 ∧ helper_cbnz null_capability = 0 := by
  decide

/-- A check-engine operand whose permissions lack LOAD_CAP (and every other
bit except LOAD), used to exhibit the fall-through of the permission switch. -/
def ccNoLoadCapCap : cap_register_t :=
  { cr_tag := true, cr_base := 0, cr_top := 4096, cr_offset := 0,
    cr_perms := CAP_PERM_LOAD, cr_uperms := 0, cr_otype := CAP_OTYPE_UNSEALED }

/-- A PCC with the same (unsealed) otype as `ccNoLoadCapCap`. -/
def ccPcc : cap_register_t :=
  { cr_tag := true, cr_base := 0, cr_top := 4096, cr_offset := 0,
    cr_perms := CAP_PERMS_ALL, cr_uperms := CAP_UPERMS_ALL,
    cr_otype := CAP_OTYPE_UNSEALED }

/-- C1 counterexample: checking for the required permission LOAD_CAP against a
capability that lacks it does not raise the matching PERM_LOAD_CAP violation —
`check_cap` returns ok, because its permission `switch` only handles EXECUTE,
LOAD and STORE. -/
theorem check_cap_missing_loadcap_is_ignored :
    ccNoLoadCapCap.cr_perms &&& CAP_PERM_LOAD_CAP ≠ CAP_PERM_LOAD_CAP ∧
    check_cap ccPcc ccNoLoadCapCap CAP_PERM_LOAD_CAP 0 5 4 = .ok () := by
  refine ⟨by decide, ?_⟩
  rfl

/-- C1 (amended): `check_cap` applies its predicates in the strict priority
order tag, unsealed, required permission, bounds, and the exception raised is
the first failing condition in that order — but the specific PERM_* violation
is raised only when the required permission is EXECUTE, LOAD or STORE (a
missing bit of any other permission raises nothing and checking continues),
and after the bounds check a TYPE violation is raised when `regnum ≠ 0` and
the capability's otype differs from PCC's. -/
theorem check_cap_priority_order (pcc cr : cap_register_t)
    (perm addr regnum len : Nat) :
    (cr.cr_tag = false →
      check_cap pcc cr perm addr regnum len = .error (.c2 .TAG regnum)) ∧
    (cr.cr_tag = true → is_cap_sealed cr = true →
      check_cap pcc cr perm addr regnum len = .error (.c2 .SEAL regnum)) ∧
    (cr.cr_tag = true → is_cap_sealed cr = false →
      cr.cr_perms &&& perm ≠ perm → perm = CAP_PERM_EXECUTE →
      check_cap pcc cr perm addr regnum len = .error (.c2 .PERM_EXE regnum)) ∧
    (cr.cr_tag = true → is_cap_sealed cr = false →
      cr.cr_perms &&& perm ≠ perm → perm = CAP_PERM_LOAD →
      check_cap pcc cr perm addr regnum len = .error (.c2 .PERM_LD regnum)) ∧
    (cr.cr_tag = true → is_cap_sealed cr = false →
      cr.cr_perms &&& perm ≠ perm → perm = CAP_PERM_STORE →
      check_cap pcc cr perm addr regnum len = .error (.c2 .PERM_ST regnum)) ∧
    (cr.cr_tag = true → is_cap_sealed cr = false →
      (cr.cr_perms &&& perm = perm ∨
        (perm ≠ CAP_PERM_EXECUTE ∧ perm ≠ CAP_PERM_LOAD ∧ perm ≠ CAP_PERM_STORE)) →
      cap_is_in_bounds cr addr len = false →
      check_cap pcc cr perm addr regnum len = .error (.c2 .LENGTH regnum)) ∧
    (cr.cr_tag = true → is_cap_sealed cr = false →
      (cr.cr_perms &&& perm = perm ∨
        (perm ≠ CAP_PERM_EXECUTE ∧ perm ≠ CAP_PERM_LOAD ∧ perm ≠ CAP_PERM_STORE)) →
      cap_is_in_bounds cr addr len = true →
      caps_have_same_type pcc cr = false → regnum ≠ 0 →
      check_cap pcc cr perm addr regnum len = .error (.c2 .TYPE regnum)) ∧
    (cr.cr_tag = true → is_cap_sealed cr = false →
      (cr.cr_perms &&& perm = perm ∨
        (perm ≠ CAP_PERM_EXECUTE ∧ perm ≠ CAP_PERM_LOAD ∧ perm ≠ CAP_PERM_STORE)) →
      cap_is_in_bounds cr addr len = true →
      (caps_have_same_type pcc cr = true ∨ regnum = 0) →
      check_cap pcc cr perm addr regnum len = .ok ()) := by
  refine ⟨?_, ?_, ?_, ?_, ?_, ?_, ?_, ?_⟩
  · intro h; simp [check_cap, h]
  · intro h1 h2; simp [check_cap, h1, h2]
  · intro h1 h2 h3 h4; subst h4; simp [check_cap, h1, h2, h3]
  · intro h1 h2 h3 h4; subst h4
    have hne : CAP_PERM_LOAD ≠ CAP_PERM_EXECUTE := by decide
    simp [check_cap, h1, h2, h3, hne]
  · intro h1 h2 h3 h4; subst h4
    have hne1 : CAP_PERM_STORE ≠ CAP_PERM_EXECUTE := by decide
    have hne2 : CAP_PERM_STORE ≠ CAP_PERM_LOAD := by decide
    simp [check_cap, h1, h2, h3, hne1, hne2]
  · intro h1 h2 h3 h4
    rcases h3 with h3 | h3
    · simp [check_cap, h1, h2, h3, h4]
    · obtain ⟨he, hl, hs⟩ := h3
      simp [check_cap, h1, h2, h4, he, hl, hs]
  · intro h1 h2 h3 h4 h5 h6
    rcases h3 with h3 | h3
    · simp [check_cap, h1, h2, h3, h4, h5, h6]
    · obtain ⟨he, hl, hs⟩ := h3
      simp [check_cap, h1, h2, h4, h5, h6, he, hl, hs]
  · intro h1 h2 h3 h4 h5
    rcases h3 with h3 | h3
    · rcases h5 with h5 | h5 <;> simp [check_cap, h1, h2, h3, h4, h5]
    · obtain ⟨he, hl, hs⟩ := h3
      rcases h5 with h5 | h5 <;> simp [check_cap, h1, h2, h4, h5, he, hl, hs]

/-- C1 witness: the priority-order theorem applied at a concrete input — an
untagged capability fails the tag check first. -/
theorem check_cap_priority_order_witness :
    check_cap ccPcc null_capability CAP_PERM_LOAD 0 5 4 =
      .error (.c2 .TAG 5) :=
  (check_cap_priority_order ccPcc null_capability CAP_PERM_LOAD 0 5 4).1 rfl

/-- A tagged, unsealed capability covering the full address space
(top = 2 ^ 64) with cursor 1, used to exhibit the `new_top > UINT64_MAX`
guard of `do_setbounds`. -/
def sbFullSpaceCap : cap_register_t :=
  { cr_tag := true, cr_base := 0, cr_top := 2 ^ 64, cr_offset := 1,
    cr_perms := CAP_PERMS_ALL, cr_uperms := 0, cr_otype := CAP_OTYPE_UNSEALED }

/-- C2 counterexample: a tagged unsealed capability with cursor ≥ base and
cursor + length = 2 ^ 64 ≤ top satisfies the claim's preconditions, yet both
`CSetBounds` and `CSetBoundsExact` raise LENGTH (the source refuses to create
full-address-space capabilities: `new_top > UINT64_MAX`), rather than writing
a result or raising INEXACT. -/
theorem setbounds_length_trap_at_2pow64 :
    (sbFullSpaceCap.cr_tag = true ∧ is_cap_sealed sbFullSpaceCap = false ∧
      sbFullSpaceCap.cr_base ≤ cap_get_cursor sbFullSpaceCap ∧
      cap_get_cursor sbFullSpaceCap + (2 ^ 64 - 1) ≤ cap_get_top sbFullSpaceCap) ∧
    do_setbounds false sbFullSpaceCap (2 ^ 64 - 1) 3 = .error (.c2 .LENGTH 3) ∧
    do_setbounds true sbFullSpaceCap (2 ^ 64 - 1) 3 = .error (.c2 .LENGTH 3) := by
  refine ⟨by decide, ?_, ?_⟩ <;> rfl

/-- C2 (amended): for every tagged, unsealed capability whose cursor is at or
above its base and whose cursor plus the requested length neither exceeds its
top nor `UINT64_MAX`, `SetBounds` writes a derived capability whose base and
top never enlarge the source's, and `SetBoundsExact` under the same
preconditions either succeeds with the resulting length exactly the requested
length or raises INEXACT. -/
theorem do_setbounds_monotone_and_exact (cbp : cap_register_t)
    (length cb : Nat)
    (h1 : cbp.cr_tag = true) (h2 : is_cap_sealed cbp = false)
    (h3 : cbp.cr_base ≤ cap_get_cursor cbp)
    (h4 : cap_get_cursor cbp + length ≤ cap_get_top cbp)
    (h5 : cap_get_cursor cbp + length ≤ UINT64_MAX) :
    (∃ r, do_setbounds false cbp length cb = .ok r ∧
      cbp.cr_base ≤ cap_get_base r ∧ cap_get_top r ≤ cap_get_top cbp) ∧
    ((∃ r, do_setbounds true cbp length cb = .ok r ∧
        cap_get_length65 r = length) ∨
      do_setbounds true cbp length cb = .error (.c2 .INEXACT cb)) := by
  have hres : ∀ b : Bool, do_setbounds b cbp length cb =
      .ok { cbp with cr_base := cap_get_cursor cbp,
                     cr_top := cap_get_cursor cbp + length,
                     cr_offset := 0 } := by
    intro b
    unfold do_setbounds
    simp [h1, h2, Nat.not_lt.mpr h3, Nat.not_lt.mpr h4, Nat.not_lt.mpr h5]
  constructor
  · exact ⟨_, hres false, h3, h4⟩
  · exact Or.inl ⟨_, hres true, by simp [cap_get_length65]⟩

/-- C2 witness: the setbounds theorem applied to a concrete capability
[0x1000, 0x2000) with cursor 0x1000 and requested length 0x100. -/
theorem do_setbounds_monotone_and_exact_witness :
    (∃ r, do_setbounds false
        { cr_tag := true, cr_base := 0x1000, cr_top := 0x2000, cr_offset := 0,
          cr_perms := CAP_PERMS_ALL, cr_uperms := 0,
          cr_otype := CAP_OTYPE_UNSEALED } 0x100 7 = .ok r ∧
      (0x1000 : Nat) ≤ cap_get_base r ∧ cap_get_top r ≤ 0x2000) ∧
    ((∃ r, do_setbounds true
        { cr_tag := true, cr_base := 0x1000, cr_top := 0x2000, cr_offset := 0,
          cr_perms := CAP_PERMS_ALL, cr_uperms := 0,
          cr_otype := CAP_OTYPE_UNSEALED } 0x100 7 = .ok r ∧
        cap_get_length65 r = 0x100) ∨
      do_setbounds true
        { cr_tag := true, cr_base := 0x1000, cr_top := 0x2000, cr_offset := 0,
          cr_perms := CAP_PERMS_ALL, cr_uperms := 0,
          cr_otype := CAP_OTYPE_UNSEALED } 0x100 7 = .error (.c2 .INEXACT 7)) :=
  do_setbounds_monotone_and_exact _ 0x100 7 rfl (by decide) (by decide)
    (by decide) (by decide)

/-- C4: a capability store through an authorizing capability `cbp` that is
tagged, unsealed and has STORE raises PERM_ST_CAP when it lacks STORE_CAP;
when it additionally has STORE_CAP but lacks STORE_LOCAL and the stored
capability is tagged without GLOBAL it raises PERM_ST_LC_CAP; and a completed
capability store sets the tag bit of the target line iff the stored
capability's tag is set, clearing it otherwise. -/
theorem csc_store_cap_checks_and_tag (cbp csp : cap_register_t)
    (rt offset cb : Nat) (tags : Nat → Bool) (vaddr : Nat)
    (h1 : cbp.cr_tag = true) (h2 : is_cap_sealed cbp = false)
    (h3 : cbp.cr_perms &&& CAP_PERM_STORE ≠ 0) :
    (cbp.cr_perms &&& CAP_PERM_STORE_CAP = 0 →
      get_csc_addr cbp csp rt offset cb = .error (.c2 .PERM_ST_CAP cb)) ∧
    (cbp.cr_perms &&& CAP_PERM_STORE_CAP ≠ 0 →
      cbp.cr_perms &&& CAP_PERM_STORE_LOCAL = 0 →
      csp.cr_tag = true → csp.cr_perms &&& CAP_PERM_GLOBAL = 0 →
      get_csc_addr cbp csp rt offset cb = .error (.c2 .PERM_ST_LC_CAP cb)) ∧
    ((store_cap_to_memory tags csp vaddr).tags vaddr = csp.cr_tag) := by
  refine ⟨?_, ?_, ?_⟩
  · intro h4; simp [get_csc_addr, h1, h2, h3, h4]
  · intro h4 h5 h6 h7; simp [get_csc_addr, h1, h2, h3, h4, h5, h6, h7]
  · cases htag : csp.cr_tag <;>
      simp [store_cap_to_memory, cheri_tag_set, cheri_tag_invalidate, htag,
        CHERI_CAP_SIZE, Nat.le_refl]
    omega

/-- C4 witness: the CSC theorem applied to a concrete authorizing capability
with STORE but no STORE_CAP, and a concrete tag-memory line. -/
theorem csc_store_cap_checks_and_tag_witness :
    get_csc_addr
      { cr_tag := true, cr_base := 0, cr_top := 4096, cr_offset := 0,
        cr_perms := CAP_PERM_STORE, cr_uperms := 0,
        cr_otype := CAP_OTYPE_UNSEALED }
      null_capability 0 0 9 = .error (.c2 .PERM_ST_CAP 9) :=
  (csc_store_cap_checks_and_tag _ null_capability 0 0 9 (fun _ => false) 0
    rfl (by decide) (by decide)).1 (by decide)

/-- Bit 0 of a word is set exactly when masking with 1 is non-zero. -/
theorem land_one_ne_zero_iff (p : Nat) : p &&& 1 ≠ 0 ↔ p.testBit 0 = true := by
  rw [Nat.and_one_is_mod, Nat.testBit_zero, decide_eq_true_iff]
  omega

/-- Setting bit 0 leaves every higher bit unchanged. -/
theorem lor_one_testBit_succ (p i : Nat) :
    (p ||| 1).testBit (i + 1) = p.testBit (i + 1) := by
  rw [Nat.testBit_lor]
  have h1 : (1 : Nat).testBit (i + 1) = false := by
    have h2 := Nat.testBit_two_pow_of_ne (n := 0) (m := i + 1) (by omega)
    simpa using h2
  simp [h1]

/-- Setting bit 0 sets bit 0. -/
theorem lor_one_testBit_zero (p : Nat) : (p ||| 1).testBit 0 = true := by
  rw [Nat.testBit_lor]
  simp

/-- Clearing bit 0 (by subtracting `p % 2`) clears bit 0. -/
theorem sub_mod_two_testBit_zero (p : Nat) : (p - p % 2).testBit 0 = false := by
  rw [Nat.testBit_zero, decide_eq_false_iff_not]
  omega

/-- Clearing bit 0 leaves every higher bit unchanged. -/
theorem sub_mod_two_testBit_succ (p i : Nat) :
    (p - p % 2).testBit (i + 1) = p.testBit (i + 1) := by
  rw [Nat.testBit_succ, Nat.testBit_succ]
  congr 1
  omega

/-- C5: `CUnseal` succeeds only when ct's cursor equals cs's otype, ct has the
UNSEAL permission and ct's cursor is within ct's bounds; the destination
receives cs unsealed and otherwise unchanged, except that its GLOBAL
permission (bit 0) is set iff both cs and ct have GLOBAL. -/
theorem cunseal_success_conditions (csp ctp r : cap_register_t) (cs ct : Nat)
    (h : helper_cunseal csp ctp cs ct = .ok r) :
    cap_get_cursor ctp = csp.cr_otype ∧
    ctp.cr_perms &&& CAP_PERM_UNSEAL ≠ 0 ∧
    cap_is_in_bounds ctp (cap_get_cursor ctp) 1 = true ∧
    r.cr_tag = csp.cr_tag ∧ r.cr_base = csp.cr_base ∧
    r.cr_top = csp.cr_top ∧ r.cr_offset = csp.cr_offset ∧
    r.cr_uperms = csp.cr_uperms ∧ r.cr_otype = CAP_OTYPE_UNSEALED ∧
    r.cr_perms.testBit 0 = (csp.cr_perms.testBit 0 && ctp.cr_perms.testBit 0) ∧
    (∀ i, i ≠ 0 → r.cr_perms.testBit i = csp.cr_perms.testBit i) := by
  unfold helper_cunseal at h
  repeat' split at h
  any_goals exact Except.noConfusion h
  case _ hg1 hg2 hg3 hg4 hg5 hg6 hg7 hg8 hglob =>
    obtain ⟨hcur, _⟩ := not_or.mp hg5
    obtain ⟨hcsg, hctg⟩ := hglob
    refine ⟨by omega, by simpa using hg6, by simpa using hg7, ?_⟩
    obtain rfl : cap_set_unsealed
        { csp with cr_perms := csp.cr_perms ||| CAP_PERM_GLOBAL } = r := by
      simpa using h
    refine ⟨rfl, rfl, rfl, rfl, rfl, rfl, ?_, ?_⟩
    · simp only [cap_set_unsealed, CAP_PERM_GLOBAL]
      rw [lor_one_testBit_zero,
        (land_one_ne_zero_iff _).mp (by simpa [CAP_PERM_GLOBAL] using hcsg),
        (land_one_ne_zero_iff _).mp (by simpa [CAP_PERM_GLOBAL] using hctg)]
      rfl
    · intro i hi
      obtain ⟨j, rfl⟩ := Nat.exists_eq_succ_of_ne_zero hi
      simp only [cap_set_unsealed, CAP_PERM_GLOBAL]
      exact lor_one_testBit_succ _ _
  case _ hg1 hg2 hg3 hg4 hg5 hg6 hg7 hg8 hglob =>
    obtain ⟨hcur, _⟩ := not_or.mp hg5
    refine ⟨by omega, by simpa using hg6, by simpa using hg7, ?_⟩
    obtain rfl : cap_set_unsealed
        { csp with
            cr_perms := csp.cr_perms - (csp.cr_perms &&& CAP_PERM_GLOBAL) } = r := by
      simpa using h
    refine ⟨rfl, rfl, rfl, rfl, rfl, rfl, ?_, ?_⟩
    · simp only [cap_set_unsealed, CAP_PERM_GLOBAL, Nat.and_one_is_mod]
      rw [sub_mod_two_testBit_zero]
      rcases not_and_or.mp hglob with hng | hng
      · have hcs : csp.cr_perms.testBit 0 = false := by
          rw [Nat.testBit_zero, decide_eq_false_iff_not]
          have h0 := of_not_not hng
          simp only [CAP_PERM_GLOBAL, Nat.and_one_is_mod] at h0
          omega
        rw [hcs]
        rfl
      · have hct : ctp.cr_perms.testBit 0 = false := by
          rw [Nat.testBit_zero, decide_eq_false_iff_not]
          have h0 := of_not_not hng
          simp only [CAP_PERM_GLOBAL, Nat.and_one_is_mod] at h0
          omega
        rw [hct]
        simp
    · intro i hi
      obtain ⟨j, rfl⟩ := Nat.exists_eq_succ_of_ne_zero hi
      simp only [cap_set_unsealed, CAP_PERM_GLOBAL, Nat.and_one_is_mod]
      exact sub_mod_two_testBit_succ _ _

/-- A tagged capability sealed with user otype 5, successfully unsealable. -/
def cunsealCsW : cap_register_t :=
  { cr_tag := true, cr_base := 0, cr_top := 0x100, cr_offset := 0x10,
    cr_perms := 5, cr_uperms := 0, cr_otype := 5 }

/-- A tagged unsealed capability with UNSEAL and GLOBAL whose cursor is 5. -/
def cunsealCtW : cap_register_t :=
  { cr_tag := true, cr_base := 0, cr_top := 0x100, cr_offset := 5,
    cr_perms := 513, cr_uperms := 0, cr_otype := CAP_OTYPE_UNSEALED }

/-- The result `CUnseal` computes for `cunsealCsW` / `cunsealCtW`. -/
def cunsealRW : cap_register_t :=
  { cr_tag := true, cr_base := 0, cr_top := 0x100, cr_offset := 0x10,
    cr_perms := 5, cr_uperms := 0, cr_otype := CAP_OTYPE_UNSEALED }

/-- C5 witness: the unseal theorem applied to a concrete successful unseal. -/
theorem cunseal_success_conditions_witness :
    cap_get_cursor cunsealCtW = cunsealCsW.cr_otype ∧
    cunsealRW.cr_otype = CAP_OTYPE_UNSEALED :=
  ⟨(cunseal_success_conditions cunsealCsW cunsealCtW cunsealRW 1 2 rfl).1,
   (cunseal_success_conditions cunsealCsW cunsealCtW cunsealRW 1 2
      rfl).2.2.2.2.2.2.2.2.1⟩

/-- A tagged, unsealed capability holding every defined permission. -/
def candpermFullCap : cap_register_t :=
  { cr_tag := true, cr_base := 0, cr_top := 4096, cr_offset := 0,
    cr_perms := CAP_PERMS_ALL, cr_uperms := CAP_UPERMS_ALL,
    cr_otype := CAP_OTYPE_UNSEALED }

/-- C7 counterexample: `rt = 2048` sets only a bit that corresponds to no
defined architectural or user permission, yet `CAndPerm` raises no exception
at all — it returns a result with the undefined bit masked away. -/
theorem candperm_undefined_bit_not_trapped :
    (2048 &&& (CAP_PERMS_ALL ||| (CAP_UPERMS_ALL <<< CAP_UPERMS_SHFT)) = 0 ∧
      (2048 : Nat) ≠ 0) ∧
    helper_candperm candpermFullCap 2048 4 =
      .ok { candpermFullCap with cr_perms := 0, cr_uperms := 0 } :=
  ⟨by decide, by rfl⟩

/-- C7 (amended): `CAndPerm` never raises USRDEFINE — its only exceptions are
TAG and SEAL, undefined argument bits being silently masked — while
`CCheckPerm` on a tagged capability raises USRDEFINE whenever the argument has
bits set at position `16 + CAP_MAX_UPERM` or above (bits corresponding to no
defined permission). -/
theorem candperm_masks_ccheckperm_traps (cbp csp : cap_register_t)
    (rt rt2 cb cs : Nat) :
    (∀ e, helper_candperm cbp rt cb = .error e →
      e = .c2 .TAG cb ∨ e = .c2 .SEAL cb) ∧
    (csp.cr_tag = true → rt2 >>> (16 + CAP_MAX_UPERM) ≠ 0 →
      helper_ccheckperm csp rt2 cs = .error (.c2 .USRDEFINE cs)) := by
  constructor
  · intro e he
    unfold helper_candperm at he
    repeat' split at he
    · exact Or.inl (by simpa using he.symm)
    · exact Or.inr (by simpa using he.symm)
    · exact Except.noConfusion he
  · intro h1 h2
    unfold helper_ccheckperm
    rw [if_neg (by simp [h1])]
    split
    · rfl
    · split
      · rfl
      · simp [h2]

/-- C7 witness: the amended theorem applied with `rt2 = 2 ^ 19`, whose only
set bit is above every defined permission position. -/
theorem candperm_masks_ccheckperm_traps_witness :
    helper_ccheckperm candpermFullCap (2 ^ 19) 2 =
      .error (.c2 .USRDEFINE 2) :=
  (candperm_masks_ccheckperm_traps candpermFullCap candpermFullCap 0 (2 ^ 19)
    1 2).2 rfl (by decide)

/-- C9: for an untagged source capability, `CIncOffset` and `CSetOffset`
never raise an exception — whatever the otype (even a "sealed" one), the
representability predicate and the unrepresentable-result policy — and always
produce a result capability whose cursor is the requested value. -/
theorem untagged_incoffset_setoffset_total (c2e : Bool)
    (repr : cap_register_t → Nat → Bool) (cbp : cap_register_t) (rt cd : Nat)
    (h : cbp.cr_tag = false) :
    (∃ r, cincoffset_impl c2e repr cbp rt cd = .ok r ∧
      cap_get_cursor r = (cap_get_cursor cbp + rt) % MOD64) ∧
    (∃ r, helper_csetoffset c2e repr cbp rt cd = .ok r ∧
      cap_get_cursor r = (cbp.cr_base + rt) % MOD64) := by
  constructor
  · rw [cincoffset_impl, if_neg (by simp [h])]
    split
    · rw [if_neg (by simp [h])]
      refine ⟨_, rfl, ?_⟩
      simp only [cap_get_cursor, cap_mark_unrepresentable, MOD64]
      omega
    · refine ⟨_, rfl, ?_⟩
      simp only [cap_get_cursor, MOD64]
      omega
  · rw [helper_csetoffset, if_neg (by simp [h])]
    split
    · rw [if_neg (by simp [h])]
      refine ⟨_, rfl, ?_⟩
      simp only [cap_get_cursor, cap_mark_unrepresentable, MOD64]
      omega
    · refine ⟨_, rfl, ?_⟩
      simp only [cap_get_cursor, MOD64]
      omega

/-- C9 witness: the theorem applied to the (untagged) null capability with
offset increment 5 under a trivial representability predicate. -/
theorem untagged_incoffset_setoffset_total_witness :
    (∃ r, cincoffset_impl false (fun _ _ => true) null_capability 5 3 = .ok r ∧
      cap_get_cursor r = (cap_get_cursor null_capability + 5) % MOD64) ∧
    (∃ r, helper_csetoffset false (fun _ _ => true) null_capability 5 3 =
        .ok r ∧
      cap_get_cursor r = (null_capability.cr_base + 5) % MOD64) :=
  untagged_incoffset_setoffset_total false (fun _ _ => true) null_capability
    5 3 rfl

/-- C10: with a tagged `cs` and an untagged `ct`, conditional sealing
(`CCSeal`) copies `cs` unchanged and raises nothing — even when `cs` is
sealed — while unconditional `CSeal` on the same operands raises a TAG
violation attributed to `ct`. -/
theorem ccseal_vs_cseal_untagged_ct (reprSealed : cap_register_t → Nat → Bool)
    (csp ctp : cap_register_t) (cs ct : Nat)
    (h1 : csp.cr_tag = true) (h2 : ctp.cr_tag = false) :
    cseal_common reprSealed true csp ctp cs ct = .ok csp ∧
    cseal_common reprSealed false csp ctp cs ct = .error (.c2 .TAG ct) := by
  constructor <;> simp [cseal_common, h1, h2]

/-- A tagged capability sealed with user otype 7 (used as `cs` of CCSeal). -/
def ccsealCsW : cap_register_t :=
  { cr_tag := true, cr_base := 0, cr_top := 16, cr_offset := 0,
    cr_perms := 0, cr_uperms := 0, cr_otype := 7 }

/-- C10 witness: the CCSeal/CSeal theorem applied to a concrete sealed tagged
`cs` and the untagged null capability as `ct`. -/
theorem ccseal_vs_cseal_untagged_ct_witness :
    cseal_common (fun _ _ => true) true ccsealCsW null_capability 4 6 =
      .ok ccsealCsW ∧
    cseal_common (fun _ _ => true) false ccsealCsW null_capability 4 6 =
      .error (.c2 .TAG 6) :=
  ccseal_vs_cseal_untagged_ct (fun _ _ => true) ccsealCsW null_capability 4 6
    rfl rfl

/-- Bit characterisation of the register-scan loop: bit `i` of
`cap_valid_loop env n` is set exactly when `1 ≤ i ≤ n` and general capability
register `i` is tagged. -/
theorem cap_valid_loop_testBit (env : TCState) (n i : Nat) :
    (cap_valid_loop env n).testBit i = true ↔
      (1 ≤ i ∧ i ≤ n ∧ (env.CGPR i).cr_tag = true) := by
  induction n with
  | zero =>
      simp only [cap_valid_loop, Nat.zero_testBit]
      constructor
      · intro hfalse
        exact absurd hfalse (by simp)
      · rintro ⟨ha, hb, _⟩
        omega
  | succ n ih =>
      rw [cap_valid_loop, Nat.testBit_lor]
      by_cases htag : (env.CGPR (n + 1)).cr_tag = true
      · rw [if_pos htag, Nat.shiftLeft_eq, one_mul]
        rcases eq_or_ne i (n + 1) with rfl | hne
        · rw [Nat.testBit_two_pow_self]
          simp only [Bool.or_true, true_iff]
          exact ⟨by omega, by omega, htag⟩
        · rw [Nat.testBit_two_pow_of_ne (by omega), Bool.or_false, ih]
          constructor
          · rintro ⟨ha, hb, hc⟩
            exact ⟨ha, by omega, hc⟩
          · rintro ⟨ha, hb, hc⟩
            exact ⟨ha, by omega, hc⟩
      · rw [if_neg htag, Nat.zero_testBit, Bool.or_false, ih]
        constructor
        · rintro ⟨ha, hb, hc⟩
          exact ⟨ha, by omega, hc⟩
        · rintro ⟨ha, hb, hc⟩
          rcases eq_or_ne i (n + 1) with rfl | hne
          · exact absurd hc htag
          · exact ⟨ha, by omega, hc⟩

/-- C8: the value read for capability debugger register index 43 is a bitset
in which bit 0 is the tag of DDC, bit `i` for every `i` in 1..31 is the tag of
general capability register `i`, and bit 32 is the tag of PCC.  The read is a
pure function of the register file, so it modifies no architectural state. -/
theorem gdb_reg43_tag_bitset (env : TCState) :
    ((mips_gdb_get_cheri_reg_43 env).testBit 0 = env.DDC.cr_tag) ∧
    (∀ i, 1 ≤ i → i ≤ 31 →
      (mips_gdb_get_cheri_reg_43 env).testBit i = (env.CGPR i).cr_tag) ∧
    ((mips_gdb_get_cheri_reg_43 env).testBit 32 = env.PCC.cr_tag) := by
  have hd : ∀ i, i ≠ 0 →
      (if env.DDC.cr_tag then 1 else 0 : Nat).testBit i = false := by
    intro i hi
    split
    · have h1 := Nat.testBit_two_pow_of_ne (n := 0) (m := i) (Ne.symm hi)
      simpa using h1
    · exact Nat.zero_testBit i
  have hp : ∀ i, i ≠ 32 →
      (if env.PCC.cr_tag then 1 <<< 32 else 0 : Nat).testBit i = false := by
    intro i hi
    split
    · rw [Nat.shiftLeft_eq, one_mul]
      exact Nat.testBit_two_pow_of_ne (by omega)
    · exact Nat.zero_testBit i
  refine ⟨?_, ?_, ?_⟩
  · rw [mips_gdb_get_cheri_reg_43, Nat.testBit_lor, Nat.testBit_lor,
      hp 0 (by omega)]
    have hloop : (cap_valid_loop env 31).testBit 0 = false := by
      rw [← Bool.not_eq_true]
      intro hset
      obtain ⟨ha, _, _⟩ := (cap_valid_loop_testBit env 31 0).mp hset
      omega
    rw [hloop, Bool.or_false, Bool.or_false]
    cases henv : env.DDC.cr_tag <;> simp
  · intro i h1 h2
    rw [mips_gdb_get_cheri_reg_43, Nat.testBit_lor, Nat.testBit_lor,
      hp i (by omega), hd i (by omega), Bool.false_or, Bool.or_false]
    cases hcg : (env.CGPR i).cr_tag
    · rw [← Bool.not_eq_true]
      intro hset
      obtain ⟨_, _, hc⟩ := (cap_valid_loop_testBit env 31 i).mp hset
      exact absurd (hcg ▸ hc) (by simp)
    · exact (cap_valid_loop_testBit env 31 i).mpr ⟨h1, h2, hcg⟩
  · rw [mips_gdb_get_cheri_reg_43, Nat.testBit_lor, Nat.testBit_lor,
      hd 32 (by omega)]
    have hloop : (cap_valid_loop env 31).testBit 32 = false := by
      rw [← Bool.not_eq_true]
      intro hset
      obtain ⟨_, hb, _⟩ := (cap_valid_loop_testBit env 31 32).mp hset
      omega
    rw [hloop, Bool.false_or, Bool.false_or]
    cases henv : env.PCC.cr_tag
    · simp
    · rw [if_pos rfl, Nat.shiftLeft_eq, one_mul, Nat.testBit_two_pow_self]

/-- A tagged maximal-bounds capability. -/
def taggedMaxCap : cap_register_t :=
  { cr_tag := true, cr_base := 0, cr_top := 2 ^ 64, cr_offset := 0,
    cr_perms := CAP_PERMS_ALL, cr_uperms := CAP_UPERMS_ALL,
    cr_otype := CAP_OTYPE_UNSEALED }

/-- A register file with DDC, PCC and general register 5 tagged and every
other register null. -/
def gdbEnvW : TCState :=
  { CGPR := fun i => if i = 5 then taggedMaxCap else null_capability,
    DDC := taggedMaxCap, PCC := taggedMaxCap,
    UserTlsCap := null_capability, PrivTlsCap := null_capability,
    KR1C := null_capability, KR2C := null_capability,
    KCC := null_capability, KDC := null_capability,
    EPCC := null_capability, ErrorEPCC := null_capability,
    CP2_CapCause := 0 }

/-- C8 witness: the bitset theorem applied to a concrete register file at
bit 5. -/
theorem gdb_reg43_tag_bitset_witness :
    (mips_gdb_get_cheri_reg_43 gdbEnvW).testBit 5 = (gdbEnvW.CGPR 5).cr_tag :=
  (gdb_reg43_tag_bitset gdbEnvW).2.1 5 (by omega) (by omega)

/-- C3 supplementary witness: the complement theorem evaluated at a concrete
non-null capability. -/
theorem cbnz_complements_cbez_witness :
    helper_cbnz taggedMaxCap + helper_cbez taggedMaxCap = 1 :=
  (cbnz_complements_cbez taggedMaxCap).1

/-- C6 supplementary witness: `CFromPtr` with `rt = 0` evaluated at a concrete
tagged capability. -/
theorem cfromptr_zero_gives_null_witness :
    helper_cfromptr (fun _ _ => true) taggedMaxCap 0 8 = .ok null_capability :=
  cfromptr_zero_gives_null (fun _ _ => true) taggedMaxCap 8
